import Mathlib

/-!
Verification of the OpenF1 data-download pipeline (`get_data.py`).

A shallow embedding of the program's data model and operations:
* `Table` models a pandas `DataFrame` holding CSV data: a list of column
  names plus a list of rows, each row a list of string cells aligned with
  the columns.  `pd.DataFrame()` is `Table.emptyTable`; pandas `df.empty`
  (true when any axis has length zero) is `Table.isEmpty`.
* `filter_sessions` embeds the session-scope filter.
* `fetchCsv` embeds the retrying HTTP fetch `fetch_csv`, with the network
  abstracted as a function from attempt number to an `HttpOutcome`.
* `available_years` embeds the year-discovery loop.
* `CSVAgg.append` embeds the incremental CSV aggregator, the output file
  modelled as `Option (List String)` (absent, or a list of lines).
* `processRow` embeds the per-target-session block of `main`.

String case mapping, stripping and splitting are defined here directly on
the character list of a string (ASCII case mapping, as Lean core's
`Char.toLower`/`Char.toUpper`), so that every definition evaluates by
kernel reduction; the repository's data is ASCII.
-/

namespace OpenF1

/-- Python `str.lower()` (ASCII): lowercase every character. -/
def strLower (s : String) : String := ⟨s.data.map Char.toLower⟩

/-- Python `str.upper()` (ASCII): uppercase every character. -/
def strUpper (s : String) : String := ⟨s.data.map Char.toUpper⟩

/-- ASCII whitespace, as recognised by `bytes.strip()`. -/
def isSpaceB (c : Char) : Bool := c.toNat == 32 || (9 ≤ c.toNat && c.toNat ≤ 13)

/-- Python `bytes.strip()` / `str.strip()`: drop leading and trailing
whitespace. -/
def pyStrip (s : String) : String :=
  ⟨((s.data.dropWhile isSpaceB).reverse.dropWhile isSpaceB).reverse⟩

/-- Python substring test `pat in s` (and pandas `str.contains` with a
literal pattern): `pat` occurs contiguously somewhere in `s`. -/
def strContains (s pat : String) : Bool :=
  (List.range (s.length + 1)).any
    (fun i => ((s.data.drop i).take pat.length) == pat.data)

/-- A pandas DataFrame holding CSV data: column names plus rows of string
cells (cell values are modelled as the strings an all-text CSV carries). -/
structure Table where
  cols : List String
  rows : List (List String)
deriving DecidableEq

/-- pandas `df.empty`: true when any axis has length zero. -/
def Table.isEmpty (t : Table) : Bool := t.cols.isEmpty || t.rows.isEmpty

/-- `pd.DataFrame()`: the empty table. -/
def Table.emptyTable : Table := ⟨[], []⟩

/-- `cols = {c.lower(): c for c in df.columns}` followed by a lookup of
`key`: the index of the column whose lowercased name equals `key`; with
several such columns the Python dict keeps the last one. -/
def colIdx (cols : List String) (key : String) : Option Nat :=
  ((List.range cols.length).filter
    (fun i => strLower (cols.getD i "") == key)).getLast?

/-- Lines 65-71 of `get_data.py`: the boolean mask for one row, given the
lowercased `session_name` cell (`none` when the column is absent) and the
uppercased `session_type` cell.  `m` starts `False` and is or-ed with each
applicable criterion. -/
def rowMatch (scope : String) (sn st : Option String) : Bool :=
  let m := false
  let m := if scope == "RACE" || scope == "RACE_SPRINT" then
             let m := match sn with | some v => m || (v == "race") | none => m
             let m := match st with | some v => m || (v == "R") | none => m
             m
           else m
  let m := if scope == "RACE_SPRINT" then
             let m := match sn with | some v => m || strContains v "sprint" | none => m
             let m := match st with | some v => m || (v == "S" || v == "SPRINT") | none => m
             m
           else m
  m

/-- The mask of `filter_sessions` evaluated at one row of `t`: the
`session_name` / `session_type` columns are located case-insensitively and
their cells lowercased / uppercased (`astype(str).str.lower()` /
`.str.upper()`) before `rowMatch`. -/
def sessionMatch (t : Table) (scope : String) (r : List String) : Bool :=
  rowMatch scope
    ((colIdx t.cols "session_name").map (fun i => strLower (r.getD i "")))
    ((colIdx t.cols "session_type").map (fun i => strUpper (r.getD i "")))

/-- Lines 59-72 of `get_data.py` (`filter_sessions`): empty input or scope
`ALL` is returned unchanged; otherwise the rows matching the mask are kept
(`df.loc[m]`), and when no row matches (`not m.any()`) the original table
is returned (fail-open). -/
def filter_sessions (t : Table) (scope : String) : Table :=
  if t.isEmpty || scope == "ALL" then t
  else
    let kept := t.rows.filter (sessionMatch t scope)
    if kept.isEmpty then t else ⟨t.cols, kept⟩

/-- The raw (untransformed) `session_name` and `session_type` cells of a
row, each `none` when its column is absent (columns located
case-insensitively, as the code does). -/
def rawVals (t : Table) (r : List String) : Option String × Option String :=
  ((colIdx t.cols "session_name").map (fun i => r.getD i ""),
   (colIdx t.cols "session_type").map (fun i => r.getD i ""))

/-- Modelled from the spec: the selection predicate in the spec's words.
A row is selected when its session name equals "race" case-insensitively
or its session type equals "R" case-insensitively; under `RACE_SPRINT`
additionally when the name contains "sprint" case-insensitively or the
type is one of {"S", "SPRINT"} case-insensitively.  Case-insensitive
equality with an upper-case literal is formalised as comparing the
uppercased value, and with a lower-case literal as comparing the
lowercased value. -/
def specSelects (scope : String) (sn st : Option String) : Prop :=
  ((∃ v, sn = some v ∧ strLower v = "race") ∨
   (∃ v, st = some v ∧ strUpper v = "R")) ∨
  (scope = "RACE_SPRINT" ∧
    ((∃ v, sn = some v ∧ strContains (strLower v) "sprint" = true) ∨
     (∃ v, st = some v ∧ (strUpper v = "S" ∨ strUpper v = "SPRINT"))))

/-! ### The retrying fetch (`fetch_csv`, lines 25-45) -/

/-- `RETRIES = 4`: the number of loop iterations of `fetch_csv`. -/
def RETRIES : Nat := 4

/-- `BACKOFF = 2.0`, modelled as an exact rational (2.0 and its small
powers are exact floating-point values). -/
def BACKOFF : ℚ := 2

/-- What the network produces for one attempt: an HTTP response (status
code and body), or an exception from `requests.get` (connection error,
timeout). -/
inductive HttpOutcome where
  | resp (status : Nat) (body : String)
  | netErr (msg : String)
deriving DecidableEq

/-- Outcome of the `try` block of one attempt: a returned table, or an
exception caught and stored in `err`. -/
inductive AttemptResult where
  | done (t : Table)
  | fail (msg : String)
deriving DecidableEq

/-- Splitting a character list on a separator (Python `str.split(sep)`):
the empty list gives one empty segment. -/
def splitOnChar (sep : Char) : List Char → List (List Char)
  | [] => [[]]
  | c :: cs =>
    let r := splitOnChar sep cs
    if c == sep then [] :: r
    else (c :: r.headD []) :: r.tail

/-- Model of `pd.read_csv` on the response body: strip it, split into
lines (blank lines skipped, as the pandas parser does), the first line
giving the column names and each further line a row of cells split on
commas.  `none` models the parser raising (no data line at all); quoting
and type inference are not modelled, cells stay strings. -/
def parseCsv (body : String) : Option Table :=
  let lines := (splitOnChar '\n' (pyStrip body).data).map (fun l => String.mk l)
  match lines.filter (fun l => l != "") with
  | [] => none
  | header :: rest =>
      some ⟨(splitOnChar ',' header.data).map (fun l => String.mk l),
            rest.map (fun l => (splitOnChar ',' l.data).map (fun c => String.mk c))⟩

/-- One iteration of the retry loop of `fetch_csv` (lines 30-43).
Statuses 204 and 400 return an empty table before `raise_for_status`; an
`HTTPError` (status in [400, 600)) with status 400 or 404 returns an empty
table and any other `HTTPError` is stored as the current error; a network
exception is stored likewise; a blank (stripped-empty) body returns an
empty table; otherwise the body is parsed, a parse exception being stored
like any other. -/
def attemptOf (o : HttpOutcome) : AttemptResult :=
  match o with
  | .netErr m => .fail m
  | .resp status body =>
    if status = 204 ∨ status = 400 then .done Table.emptyTable
    else if 400 ≤ status ∧ status < 600 then
      if status = 400 ∨ status = 404 then .done Table.emptyTable
      else .fail ("HTTPError " ++ toString status)
    else if pyStrip body = "" then .done Table.emptyTable
    else
      match parseCsv body with
      | some t => .done t
      | none => .fail "parse error"

/-- The `RuntimeError` raised when the retry budget is exhausted, carrying
the endpoint, the params (including the added `csv=true` flag, since the
code interpolates the reassigned `params`) and the last stored error. -/
structure FetchError where
  endpoint : String
  params : List (String × String)
  lastErr : Option String
deriving DecidableEq

/-- Observable trace of one `fetch_csv` call: its result, the number of
attempts performed, and the `time.sleep` delays in order. -/
structure FetchTrace where
  result : Except FetchError Table
  attempts : Nat
  delays : List ℚ

/-- The retry loop of `fetch_csv` (`for a in range(RETRIES)`), entered at
attempt index `a` with the stored error `err` and the sleeps performed so
far.  A successful attempt returns at once; a failed attempt stores the
error, sleeps `BACKOFF ** a` and continues; leaving the loop raises. -/
def fetchGo (outcomes : Nat → HttpOutcome) (ep : String) (ps : List (String × String))
    (a : Nat) (err : Option String) (ds : List ℚ) : FetchTrace :=
  if _h : a < RETRIES then
    match attemptOf (outcomes a) with
    | .done t => ⟨.ok t, a + 1, ds⟩
    | .fail m => fetchGo outcomes ep ps (a + 1) (some m) (ds ++ [BACKOFF ^ a])
  else ⟨.error ⟨ep, ps, err⟩, a, ds⟩
termination_by RETRIES - a
decreasing_by omega

/-- `fetch_csv(endpoint, **params)` (lines 25-45): add the `csv=true`
flag and run the retry loop from attempt 0 with no stored error. -/
def fetchCsv (ep : String) (ps : List (String × String))
    (outcomes : Nat → HttpOutcome) : FetchTrace :=
  fetchGo outcomes ep (ps ++ [("csv", "true")]) 0 none []

/-- A transient failure in the spec's sense: a connection error or
timeout, or an HTTP error status other than 204, 400 and 404. -/
def transient (o : HttpOutcome) : Prop :=
  (∃ m, o = .netErr m) ∨
  (∃ s b, o = .resp s b ∧ 400 ≤ s ∧ s < 600 ∧ s ≠ 400 ∧ s ≠ 404)

/-- Outcome sequence used as retry witness: two connection errors, then a
valid 200 response. -/
def wOutcomes : Nat → HttpOutcome :=
  fun a => if a < 2 then .netErr "connection reset" else .resp 200 "a,b\n1,2"

/-! ### Year discovery (`available_years`, lines 47-57) -/

/-- The ascending year list `range(start_from, end_to + 1)`. -/
def yearRange (s e : Int) : List Int :=
  (List.range (e + 1 - s).toNat).map (fun i => s + (i : Int))

/-- The loop body of `available_years` for year `y`: true when the probe
of the sessions endpoint for that year succeeded with a non-empty table;
false when it returned an empty table or raised (the exception being
swallowed by `except Exception: pass`). -/
def probeOk (outcomes : Int → Nat → HttpOutcome) (y : Int) : Bool :=
  match (fetchCsv "sessions" [("year", toString y)] (outcomes y)).result with
  | .ok t => !t.isEmpty
  | .error _ => false

/-- `available_years(start_from, end_to)` (lines 47-57), the network for
each year's probe given by `outcomes`: the years of the range kept by the
loop, in ascending probe order.  Total: a failing probe never aborts
discovery. -/
def available_years (outcomes : Int → Nat → HttpOutcome) (s e : Int) : List Int :=
  (yearRange s e).filter (probeOk outcomes)

/-- Network used as discovery witness: 2018 has session data, every other
year probes empty (status 204). -/
def wYearNet : Int → Nat → HttpOutcome :=
  fun y _ => if y == 2018 then .resp 200 "session_key\n9158" else .resp 204 ""

/-! ### The CSV aggregator (`CSVAgg`, lines 74-89) -/

/-- The state of one output destination: absent, or the list of lines
already written (each `to_csv` write ends its lines with a newline, so
content is fully described by its line list; zero lines is a zero-byte
file). -/
abbrev FileState := Option (List String)

/-- Cells joined with commas, one CSV line (the repository's cells carry
no commas or quotes, so `to_csv` quoting is not modelled). -/
def joinCells : List String → String
  | [] => ""
  | [c] => c
  | c :: cs => c ++ "," ++ joinCells cs

/-- `CSVAgg._has_header` (lines 84-89): open the destination and test the
first byte; a missing file (`FileNotFoundError`) reports no header. -/
def hasHeader : FileState → Bool
  | none => false
  | some l => !l.isEmpty

/-- The lines one `df.to_csv(..., mode="a", header=h)` call appends: the
header line when `h` is set, then one line per row. -/
def csvLines (t : Table) (header : Bool) : List String :=
  (if header then [joinCells t.cols] else []) ++ t.rows.map joinCells

/-- `CSVAgg.append` (lines 80-83): an empty table is a no-op (`df is
None` cannot arise here, tables are total); otherwise the destination is
created empty if missing (`write_text("")`), and the table is appended
with the header exactly when `_has_header` reads no byte. -/
def CSVAgg.append (fs : FileState) (t : Table) : FileState :=
  if t.isEmpty then fs
  else
    let fs1 : FileState := match fs with | none => some [] | some l => some l
    some ((fs1.getD []) ++ csvLines t (!hasHeader fs1))

/-- `CSVAgg.__init__` under `OVERWRITE = True` (lines 75-79): an existing
destination is deleted first, so every run starts from an absent file. -/
def CSVAgg.init : FileState := none

/-! ### The per-session block of `main` (lines 127-148) -/

/-- Decimal value of a digit string. -/
def digitsVal (l : List Char) : Nat :=
  l.foldl (fun n c => n * 10 + (c.toNat - 48)) 0

/-- Python `int(str)`: strip whitespace, optional sign, then decimal
digits (underscore grouping not modelled); `none` when the text is not an
integer literal (`ValueError`). -/
def pyInt (s : String) : Option Int :=
  let t := (pyStrip s).data
  let neg := t.headD ' ' == '-'
  let core := if neg || (t.headD ' ' == '+') then t.drop 1 else t
  if core ≠ [] ∧ core.all Char.isDigit then
    some (if neg then -(digitsVal core : Int) else (digitsVal core : Int))
  else none

/-- Observable actions of the per-session loop body of `main`. -/
inductive Event where
  | fetched (endpoint : String) (sessionKey : Int)
  | appended (name : String) (sessionKey : Int) (t : Table)
  | warned (sessionKey : Int) (endpoint : String) (msg : String)
deriving DecidableEq

/-- The six per-session endpoints of the driver (lines 135-137);
`DOWNLOAD_LAPS = False`, so laps is not among them. -/
def perSessionEndpoints : List (String × String) :=
  [("stints", "stints"), ("pit", "pit"), ("weather", "weather"),
   ("starting_grid", "starting_grid"), ("session_result", "session_result"),
   ("race_control", "race_control")]

/-- `sk = cols.get("session_key", "session_key")` followed by `r[sk]` and
`int(...)` (lines 127-133): the session key of a target row.  `none` when
no column is named session_key case-insensitively (then `r[sk]` with the
literal fallback raises `KeyError`) or when `int` raises `ValueError`;
both exceptions hit the same `except: continue`. -/
def rowKey (cols : List String) (r : List String) : Option Int :=
  match colIdx cols "session_key" with
  | some i => pyInt (r.getD i "")
  | none => none

/-- One iteration of `for _, r in tgt.iterrows()` (lines 130-142): a row
whose key cannot be obtained is skipped by `continue` with no action at
all; otherwise each per-session endpoint is fetched (the network given by
`net`) and the result appended to its aggregation target, a fetch failure
being logged as a warning instead. -/
def processRow (net : String → Int → Except String Table)
    (cols : List String) (r : List String) : List Event :=
  match rowKey cols r with
  | none => []
  | some key =>
    perSessionEndpoints.flatMap (fun p =>
      match net p.1 key with
      | .ok df => [.fetched p.1 key, .appended p.2 key df]
      | .error e => [.fetched p.1 key, .warned key p.1 e])

/-! ### Theorems about `filter_sessions` -/

/-- C3: for every sessions table and scope `RACE` or `RACE_SPRINT`, if no
row satisfies the scope selection predicate, `filter_sessions` returns the
original input unchanged (fail-open), not an empty table. -/
theorem filter_sessions_fail_open (t : Table) (scope : String)
    (_hscope : scope = "RACE" ∨ scope = "RACE_SPRINT")
    (hnone : ∀ r ∈ t.rows, sessionMatch t scope r = false) :
    filter_sessions t scope = t := by
  have hk : t.rows.filter (sessionMatch t scope) = [] := by
    rw [List.filter_eq_nil_iff]
    intro a ha
    simp [hnone a ha]
  simp [filter_sessions, hk]

/-- Witness for C3 at a concrete table with no matching row. -/
theorem filter_sessions_fail_open_witness :
    filter_sessions ⟨["session_name"], [["Qualifying"]]⟩ "RACE" =
      ⟨["session_name"], [["Qualifying"]]⟩ :=
  filter_sessions_fail_open _ _ (Or.inl rfl) (by decide)

/-- C4: under scope `RACE` or `RACE_SPRINT`, the selection predicate of
`filter_sessions` selects a row exactly when the spec's predicate does:
session name equals "race" case-insensitively or session type equals "R"
case-insensitively, and under `RACE_SPRINT` additionally when the name
contains "sprint" case-insensitively or the type is one of {"S","SPRINT"}
case-insensitively, with the two columns looked up case-insensitively and
independently (either may be absent). -/
theorem sessionMatch_iff_specSelects (t : Table) (scope : String) (r : List String)
    (hscope : scope = "RACE" ∨ scope = "RACE_SPRINT") :
    sessionMatch t scope r = true ↔
      specSelects scope (rawVals t r).1 (rawVals t r).2 := by
  have hne : ("RACE" : String) ≠ "RACE_SPRINT" := by decide
  rcases hscope with h | h <;> subst h <;>
    simp only [sessionMatch, rowMatch, rawVals, specSelects] <;>
    cases colIdx t.cols "session_name" <;> cases colIdx t.cols "session_type" <;>
    (simp [hne]; try tauto)

/-- Witness for C4 at the spec's example row `{session_name: "Sprint"}`. -/
theorem sessionMatch_iff_specSelects_witness :
    sessionMatch ⟨["session_name"], [["Sprint"]]⟩ "RACE_SPRINT" ["Sprint"] = true ↔
      specSelects "RACE_SPRINT"
        (rawVals ⟨["session_name"], [["Sprint"]]⟩ ["Sprint"]).1
        (rawVals ⟨["session_name"], [["Sprint"]]⟩ ["Sprint"]).2 :=
  sessionMatch_iff_specSelects _ _ _ (Or.inr rfl)

/-- C5: `filter_sessions` with scope `ALL` is the identity, and
`filter_sessions` on an empty table returns it unchanged for every
scope. -/
theorem filter_sessions_all_empty :
    (∀ t : Table, filter_sessions t "ALL" = t) ∧
    (∀ (t : Table) (scope : String), t.isEmpty = true → filter_sessions t scope = t) := by
  constructor
  · intro t
    simp [filter_sessions]
  · intro t scope h
    simp [filter_sessions, h]

/-- Witness for C5 at concrete tables. -/
theorem filter_sessions_all_empty_witness :
    filter_sessions ⟨["session_name"], [["Race"]]⟩ "ALL" =
      ⟨["session_name"], [["Race"]]⟩ ∧
    filter_sessions Table.emptyTable "RACE" = Table.emptyTable :=
  ⟨filter_sessions_all_empty.1 _,
   filter_sessions_all_empty.2 Table.emptyTable "RACE" (by decide)⟩

/-- C6 counterexample: a non-empty table whose single row matches scope
`RACE`; `filter_sessions` returns the whole table, so the result's row
list equals the input's and is not a strict subset of it. -/
theorem filter_sessions_strict_subset_cex :
    (Table.mk ["session_name"] [["race"]]).isEmpty = false ∧
    sessionMatch ⟨["session_name"], [["race"]]⟩ "RACE" ["race"] = true ∧
    filter_sessions ⟨["session_name"], [["race"]]⟩ "RACE" =
      ⟨["session_name"], [["race"]]⟩ := by
  refine ⟨by decide, by decide, by decide⟩

/-- C6 (amended): for every non-empty sessions table with at least one row
matching scope `RACE` or `RACE_SPRINT`, `filter_sessions` returns a
non-empty subset of the input's rows (a sublist, so in original order),
each of whose rows satisfies the scope predicate. -/
theorem filter_sessions_match_subset (t : Table) (scope : String)
    (hscope : scope = "RACE" ∨ scope = "RACE_SPRINT")
    (hne : t.isEmpty = false)
    (r0 : List String) (hr0 : r0 ∈ t.rows) (hm : sessionMatch t scope r0 = true) :
    (filter_sessions t scope).rows.Sublist t.rows ∧
    (filter_sessions t scope).rows ≠ [] ∧
    ∀ r ∈ (filter_sessions t scope).rows, sessionMatch t scope r = true := by
  have hAll : (scope == "ALL") = false := by
    rcases hscope with h | h <;> subst h <;> decide
  have hkept : r0 ∈ t.rows.filter (sessionMatch t scope) :=
    List.mem_filter.2 ⟨hr0, hm⟩
  have hkne : (t.rows.filter (sessionMatch t scope)).isEmpty = false := by
    cases h : (t.rows.filter (sessionMatch t scope)).isEmpty with
    | false => rfl
    | true =>
        rw [List.isEmpty_iff] at h
        rw [h] at hkept
        exact absurd hkept (List.not_mem_nil _)
  have heq : filter_sessions t scope = ⟨t.cols, t.rows.filter (sessionMatch t scope)⟩ := by
    unfold filter_sessions
    rw [hne, hAll]
    simp [hkne]
  rw [heq]
  refine ⟨List.filter_sublist _, List.ne_nil_of_mem hkept, ?_⟩
  intro r hr
  exact (List.mem_filter.1 hr).2

/-- Witness for C6 (amended) at the spec's three-row example table. -/
theorem filter_sessions_match_subset_witness :
    (filter_sessions ⟨["session_name"], [["Race"], ["Qualifying"], ["Sprint"]]⟩
        "RACE_SPRINT").rows.Sublist [["Race"], ["Qualifying"], ["Sprint"]] ∧
    (filter_sessions ⟨["session_name"], [["Race"], ["Qualifying"], ["Sprint"]]⟩
        "RACE_SPRINT").rows ≠ [] ∧
    ∀ r ∈ (filter_sessions ⟨["session_name"], [["Race"], ["Qualifying"], ["Sprint"]]⟩
        "RACE_SPRINT").rows,
      sessionMatch ⟨["session_name"], [["Race"], ["Qualifying"], ["Sprint"]]⟩
        "RACE_SPRINT" r = true :=
  filter_sessions_match_subset _ _ (Or.inr rfl) (by decide) ["Race"] (by decide) (by decide)

/-- C9: for every input table and every scope string (including scopes
outside the enum), the result's rows are a sublist of the input's rows (a
subset in original order), the columns are unchanged, and a non-empty
input yields a non-empty result. -/
theorem filter_sessions_sublist_nonempty (t : Table) (scope : String) :
    (filter_sessions t scope).rows.Sublist t.rows ∧
    (filter_sessions t scope).cols = t.cols ∧
    (t.rows ≠ [] → (filter_sessions t scope).rows ≠ []) := by
  by_cases h1 : (t.isEmpty || scope == "ALL") = true
  · have heq : filter_sessions t scope = t := by
      unfold filter_sessions
      rw [if_pos h1]
    rw [heq]
    exact ⟨List.Sublist.refl _, rfl, fun h => h⟩
  · cases hk : (List.filter (sessionMatch t scope) t.rows).isEmpty with
    | true =>
        have heq : filter_sessions t scope = t := by
          simp [filter_sessions, h1, hk]
        rw [heq]
        exact ⟨List.Sublist.refl _, rfl, fun h => h⟩
    | false =>
        have heq : filter_sessions t scope =
            ⟨t.cols, List.filter (sessionMatch t scope) t.rows⟩ := by
          simp [filter_sessions, h1, hk]
        rw [heq]
        refine ⟨List.filter_sublist _, rfl, fun _ => ?_⟩
        simp_all [List.isEmpty_iff]

/-- Witness for C9 at a concrete table and a scope outside the enum. -/
theorem filter_sessions_sublist_nonempty_witness :
    (filter_sessions ⟨["session_name"], [["Race"]]⟩ "XYZ").rows.Sublist [["Race"]] ∧
    (filter_sessions ⟨["session_name"], [["Race"]]⟩ "XYZ").cols = ["session_name"] ∧
    (filter_sessions ⟨["session_name"], [["Race"]]⟩ "XYZ").rows ≠ [] :=
  ⟨(filter_sessions_sublist_nonempty ⟨["session_name"], [["Race"]]⟩ "XYZ").1,
   (filter_sessions_sublist_nonempty ⟨["session_name"], [["Race"]]⟩ "XYZ").2.1,
   (filter_sessions_sublist_nonempty ⟨["session_name"], [["Race"]]⟩ "XYZ").2.2 (by decide)⟩

/-! ### Theorems about `fetchCsv` -/

lemma fetchGo_step_done (o : Nat → HttpOutcome) (ep : String) (ps : List (String × String))
    (a : Nat) (err : Option String) (ds : List ℚ) (t : Table)
    (ha : a < RETRIES) (ht : attemptOf (o a) = .done t) :
    fetchGo o ep ps a err ds = ⟨.ok t, a + 1, ds⟩ := by
  unfold fetchGo
  rw [dif_pos ha, ht]

lemma fetchGo_step_fail (o : Nat → HttpOutcome) (ep : String) (ps : List (String × String))
    (a : Nat) (err : Option String) (ds : List ℚ) (m : String)
    (ha : a < RETRIES) (hm : attemptOf (o a) = .fail m) :
    fetchGo o ep ps a err ds =
      fetchGo o ep ps (a + 1) (some m) (ds ++ [BACKOFF ^ a]) := by
  conv_lhs => rw [fetchGo.eq_def]
  rw [dif_pos ha, hm]

lemma fetchGo_exhausted (o : Nat → HttpOutcome) (ep : String) (ps : List (String × String))
    (a : Nat) (err : Option String) (ds : List ℚ) (ha : ¬ a < RETRIES) :
    fetchGo o ep ps a err ds = ⟨.error ⟨ep, ps, err⟩, a, ds⟩ := by
  unfold fetchGo
  rw [dif_neg ha]

lemma transient_fail (o : HttpOutcome) (h : transient o) :
    ∃ m, attemptOf o = .fail m := by
  rcases h with ⟨m, rfl⟩ | ⟨s, b, rfl, h4, h6, hn4, hn44⟩
  · exact ⟨m, rfl⟩
  · have h1 : ¬(s = 204 ∨ s = 400) := by omega
    have h2 : ¬(s = 400 ∨ s = 404) := by omega
    refine ⟨"HTTPError " ++ toString s, ?_⟩
    simp only [attemptOf]
    rw [if_neg h1, if_pos ⟨h4, h6⟩, if_neg h2]

/-- C1: for every call of the fetch operation, an HTTP response with
status 204, 400 or 404 yields an empty table and never raises, regardless
of the response body content: such a response ends its attempt with the
empty table, and a fetch whose first attempt receives such a response
returns the empty table at once. -/
theorem fetch_no_data_status (s : Nat) (body : String)
    (hs : s = 204 ∨ s = 400 ∨ s = 404) :
    attemptOf (.resp s body) = .done Table.emptyTable ∧
    ∀ (ep : String) (ps : List (String × String)) (outcomes : Nat → HttpOutcome),
      outcomes 0 = .resp s body →
      (fetchCsv ep ps outcomes).result = .ok Table.emptyTable ∧
      (fetchCsv ep ps outcomes).attempts = 1 := by
  have hA : attemptOf (.resp s body) = .done Table.emptyTable := by
    rcases hs with h | h | h <;> subst h <;> norm_num [attemptOf]
  refine ⟨hA, fun ep ps outcomes h0 => ?_⟩
  have hstep := fetchGo_step_done outcomes ep (ps ++ [("csv", "true")]) 0 none []
      Table.emptyTable (by decide) (by rw [h0]; exact hA)
  unfold fetchCsv
  rw [hstep]
  exact ⟨rfl, rfl⟩

/-- Witness for C1: a 404 with a non-empty body. -/
theorem fetch_no_data_status_witness :
    attemptOf (.resp 404 "not found") = .done Table.emptyTable ∧
    (fetchCsv "sessions" [("year", "2018")] (fun _ => .resp 404 "not found")).result =
      .ok Table.emptyTable ∧
    (fetchCsv "sessions" [("year", "2018")] (fun _ => .resp 404 "not found")).attempts = 1 := by
  have h := fetch_no_data_status 404 "not found" (Or.inr (Or.inr rfl))
  exact ⟨h.1, (h.2 "sessions" [("year", "2018")] _ rfl).1,
    (h.2 "sessions" [("year", "2018")] _ rfl).2⟩

/-- C2: the fetch retries transient failures (connection error, timeout,
HTTP error status other than 204/400/404) with backoff delay
`BACKOFF ^ attempt`, attempt starting at 0: facing `N` consecutive
transient failures followed by a success it returns the success result
after exactly `N` retries (`N + 1` attempts) with strictly increasing
delays, and facing transient failures on every attempt of the budget it
raises a `FetchError` carrying the endpoint, the params and the last
underlying error, after exactly `RETRIES` attempts and no more. -/
theorem fetch_retry_backoff (ep : String) (ps : List (String × String))
    (outcomes : Nat → HttpOutcome) (N : Nat) (t : Table)
    (hN : N + 1 ≤ RETRIES)
    (hfail : ∀ a, a < N → transient (outcomes a))
    (hsucc : attemptOf (outcomes N) = .done t) :
    ((fetchCsv ep ps outcomes).result = .ok t ∧
     (fetchCsv ep ps outcomes).attempts = N + 1 ∧
     (fetchCsv ep ps outcomes).delays = (List.range N).map (fun a => BACKOFF ^ a) ∧
     (fetchCsv ep ps outcomes).delays.Pairwise (· < ·)) ∧
    ∀ outcomes2 : Nat → HttpOutcome,
      (∀ a, a < RETRIES → transient (outcomes2 a)) →
      ∃ m, attemptOf (outcomes2 (RETRIES - 1)) = .fail m ∧
        (fetchCsv ep ps outcomes2).result =
          .error ⟨ep, ps ++ [("csv", "true")], some m⟩ ∧
        (fetchCsv ep ps outcomes2).attempts = RETRIES := by
  constructor
  · have key : fetchCsv ep ps outcomes =
        ⟨.ok t, N + 1, (List.range N).map (fun a => BACKOFF ^ a)⟩ := by
      have hN3 : N ≤ 3 := by
        have h4 : RETRIES = 4 := rfl
        omega
      unfold fetchCsv
      interval_cases N
      · rw [fetchGo_step_done _ _ _ _ _ _ _ (by decide) hsucc]
        rfl
      · obtain ⟨m0, hm0⟩ := transient_fail _ (hfail 0 (by decide))
        rw [fetchGo_step_fail _ _ _ _ _ _ _ (by decide) hm0,
            fetchGo_step_done _ _ _ _ _ _ _ (by decide) hsucc]
        norm_num [List.range_succ]
      · obtain ⟨m0, hm0⟩ := transient_fail _ (hfail 0 (by decide))
        obtain ⟨m1, hm1⟩ := transient_fail _ (hfail 1 (by decide))
        rw [fetchGo_step_fail _ _ _ _ _ _ _ (by decide) hm0,
            fetchGo_step_fail _ _ _ _ _ _ _ (by decide) hm1,
            fetchGo_step_done _ _ _ _ _ _ _ (by decide) hsucc]
        norm_num [List.range_succ]
      · obtain ⟨m0, hm0⟩ := transient_fail _ (hfail 0 (by decide))
        obtain ⟨m1, hm1⟩ := transient_fail _ (hfail 1 (by decide))
        obtain ⟨m2, hm2⟩ := transient_fail _ (hfail 2 (by decide))
        rw [fetchGo_step_fail _ _ _ _ _ _ _ (by decide) hm0,
            fetchGo_step_fail _ _ _ _ _ _ _ (by decide) hm1,
            fetchGo_step_fail _ _ _ _ _ _ _ (by decide) hm2,
            fetchGo_step_done _ _ _ _ _ _ _ (by decide) hsucc]
        norm_num [List.range_succ]
    rw [key]
    refine ⟨rfl, rfl, rfl, ?_⟩
    exact List.pairwise_map.2
      ((List.pairwise_lt_range N).imp
        (fun hab => pow_lt_pow_right₀ (by norm_num [BACKOFF]) hab))
  · intro o2 h2
    obtain ⟨m0, hm0⟩ := transient_fail _ (h2 0 (by decide))
    obtain ⟨m1, hm1⟩ := transient_fail _ (h2 1 (by decide))
    obtain ⟨m2, hm2⟩ := transient_fail _ (h2 2 (by decide))
    obtain ⟨m3, hm3⟩ := transient_fail _ (h2 3 (by decide))
    refine ⟨m3, hm3, ?_, ?_⟩ <;>
      (unfold fetchCsv
       rw [fetchGo_step_fail _ _ _ _ _ _ _ (by decide) hm0,
           fetchGo_step_fail _ _ _ _ _ _ _ (by decide) hm1,
           fetchGo_step_fail _ _ _ _ _ _ _ (by decide) hm2,
           fetchGo_step_fail _ _ _ _ _ _ _ (by decide) hm3,
           fetchGo_exhausted _ _ _ _ _ _ (by decide)]
       try (first | rfl | decide))

/-- Witness for C2: two connection errors then a success; three attempts,
two retries. -/
theorem fetch_retry_backoff_witness :
    (fetchCsv "sessions" [("year", "2023")] wOutcomes).result =
      .ok ⟨["a", "b"], [["1", "2"]]⟩ ∧
    (fetchCsv "sessions" [("year", "2023")] wOutcomes).attempts = 3 ∧
    (fetchCsv "sessions" [("year", "2023")] wOutcomes).delays =
      [BACKOFF ^ 0, BACKOFF ^ 1] := by
  have h := fetch_retry_backoff "sessions" [("year", "2023")] wOutcomes 2
      ⟨["a", "b"], [["1", "2"]]⟩ (by decide)
      (by intro a ha; interval_cases a <;> exact Or.inl ⟨"connection reset", rfl⟩)
      (by decide)
  refine ⟨h.1.1, h.1.2.1, ?_⟩
  rw [h.1.2.2.1]
  rfl

/-! ### Theorems about `available_years` -/

/-- C7: discovery probes each year of `[startYear, endYear]` in ascending
order (the result is a sublist of the ascending range) and includes a
year exactly when its probe of the sessions endpoint succeeded with a
non-empty table; a year whose fetch raised is excluded without aborting
discovery (`available_years` is a total function). -/
theorem available_years_spec (outcomes : Int → Nat → HttpOutcome) (s e : Int) :
    (∀ y, y ∈ available_years outcomes s e ↔
      (y ∈ yearRange s e ∧
       ∃ t, (fetchCsv "sessions" [("year", toString y)] (outcomes y)).result = .ok t ∧
         t.isEmpty = false)) ∧
    (available_years outcomes s e).Sublist (yearRange s e) ∧
    (∀ y err,
      (fetchCsv "sessions" [("year", toString y)] (outcomes y)).result = .error err →
      y ∉ available_years outcomes s e) := by
  refine ⟨?_, List.filter_sublist _, ?_⟩
  · intro y
    rw [available_years, List.mem_filter]
    constructor
    · rintro ⟨hy, hp⟩
      refine ⟨hy, ?_⟩
      unfold probeOk at hp
      cases hres : (fetchCsv "sessions" [("year", toString y)] (outcomes y)).result with
      | ok t =>
          rw [hres] at hp
          exact ⟨t, rfl, by simpa using hp⟩
      | error err =>
          rw [hres] at hp
          simp at hp
    · rintro ⟨hy, t, hres, hne⟩
      refine ⟨hy, ?_⟩
      unfold probeOk
      rw [hres]
      simp [hne]
  · intro y err hres hy
    rw [available_years, List.mem_filter] at hy
    have hp := hy.2
    unfold probeOk at hp
    rw [hres] at hp
    simp at hp

/-- Witness for C7: over [2018, 2019], 2018 probes non-empty and is
included. -/
theorem available_years_spec_witness :
    2018 ∈ available_years wYearNet 2018 2019 := by
  have hstep := fetchGo_step_done (wYearNet 2018) "sessions"
      ([("year", toString (2018 : Int))] ++ [("csv", "true")]) 0 none []
      ⟨["session_key"], [["9158"]]⟩ (by decide) (by decide)
  exact ((available_years_spec wYearNet 2018 2019).1 2018).2
    ⟨by decide, ⟨["session_key"], [["9158"]]⟩, by rw [fetchCsv, hstep], by decide⟩

/-! ### Theorems about `CSVAgg` -/

lemma csvagg_append_empty (fs : FileState) (t : Table) (h : t.isEmpty = true) :
    CSVAgg.append fs t = fs := by
  unfold CSVAgg.append
  rw [if_pos h]

lemma csvagg_append_nonempty (fs : FileState) (t : Table) (h : t.isEmpty = false) :
    CSVAgg.append fs t =
      some ((fs.getD []) ++ csvLines t (fs.getD []).isEmpty) := by
  unfold CSVAgg.append
  rw [if_neg (by simp [h])]
  cases fs with
  | none => simp [hasHeader]
  | some l =>
      cases l with
      | nil => simp [hasHeader]
      | cons a l => simp [hasHeader]

lemma csvagg_foldl_from_nonempty (ts : List Table) :
    ∀ l : List String, l ≠ [] → (∀ t ∈ ts, t.isEmpty = false) →
    ts.foldl CSVAgg.append (some l) =
      some (l ++ ts.flatMap (fun t => t.rows.map joinCells)) := by
  induction ts with
  | nil =>
      intro l _ _
      simp
  | cons t ts ih =>
      intro l hl hall
      have hte : t.isEmpty = false := hall t (by simp)
      have hstep : CSVAgg.append (some l) t = some (l ++ t.rows.map joinCells) := by
        rw [csvagg_append_nonempty _ _ hte]
        have : (l.isEmpty) = false := by
          cases l with
          | nil => exact absurd rfl hl
          | cons a l => rfl
        simp [csvLines, this]
      rw [List.foldl_cons, hstep,
          ih (l ++ t.rows.map joinCells)
            (fun hc => hl (List.append_eq_nil.mp hc).1)
            (fun u hu => hall u (by simp [hu]))]
      simp

/-- C8: appending an empty table never changes the destination (no
creation, no header); appending a sequence of non-empty tables with
identical columns to a fresh (overwrite-deleted) destination yields
exactly one header line, written on the first append only, followed by
all data rows in append order; and for every non-empty append the header
is written exactly when the destination holds no byte. -/
theorem csvagg_header_once (c : List String) (ts : List Table) (hne : ts ≠ [])
    (hc : ∀ t ∈ ts, t.cols = c ∧ t.isEmpty = false) :
    (∀ (fs : FileState) (t0 : Table), t0.isEmpty = true → CSVAgg.append fs t0 = fs) ∧
    ts.foldl CSVAgg.append CSVAgg.init =
      some (joinCells c :: ts.flatMap (fun t => t.rows.map joinCells)) ∧
    (∀ (fs : FileState) (t0 : Table), t0.isEmpty = false →
      CSVAgg.append fs t0 =
        some ((fs.getD []) ++ csvLines t0 (fs.getD []).isEmpty)) := by
  refine ⟨csvagg_append_empty, ?_, csvagg_append_nonempty⟩
  cases ts with
  | nil => exact absurd rfl hne
  | cons t ts =>
      have htc : t.cols = c := (hc t (by simp)).1
      have hte : t.isEmpty = false := (hc t (by simp)).2
      have hstep : CSVAgg.append CSVAgg.init t =
          some (joinCells c :: t.rows.map joinCells) := by
        rw [csvagg_append_nonempty _ _ hte]
        simp [CSVAgg.init, csvLines, htc]
      rw [List.foldl_cons, hstep,
          csvagg_foldl_from_nonempty ts _ (by simp)
            (fun u hu => (hc u (by simp [hu])).2)]
      simp

/-- Witness for C8: two tables with columns `a, b` appended to a fresh
destination; one header line then the three data rows, and an empty
append is a no-op. -/
theorem csvagg_header_once_witness :
    [(⟨["a", "b"], [["1", "2"]]⟩ : Table),
     ⟨["a", "b"], [["3", "4"], ["5", "6"]]⟩].foldl CSVAgg.append CSVAgg.init =
      some ["a,b", "1,2", "3,4", "5,6"] ∧
    CSVAgg.append CSVAgg.init Table.emptyTable = CSVAgg.init := by
  have h := csvagg_header_once ["a", "b"]
      [⟨["a", "b"], [["1", "2"]]⟩, ⟨["a", "b"], [["3", "4"], ["5", "6"]]⟩]
      (by decide) (by decide)
  refine ⟨?_, h.1 CSVAgg.init Table.emptyTable (by decide)⟩
  rw [h.2.1]
  rfl

/-! ### Theorems about the per-session block of `main` -/

/-- C10: a target-session row whose session-key value cannot be converted
to an integer is silently skipped: no per-session endpoint is fetched for
it, nothing is appended on its behalf, and no warning is produced. -/
theorem main_skips_unparsable_key (net : String → Int → Except String Table)
    (cols : List String) (r : List String) (i : Nat)
    (hcol : colIdx cols "session_key" = some i)
    (hbad : pyInt (r.getD i "") = none) :
    processRow net cols r = [] := by
  unfold processRow rowKey
  simp only [hcol]
  rw [hbad]

/-- Witness for C10: a row whose session-key cell is "n/a". -/
theorem main_skips_unparsable_key_witness :
    processRow (fun _ _ => .ok Table.emptyTable) ["session_key"] ["n/a"] = [] :=
  main_skips_unparsable_key _ ["session_key"] ["n/a"] 0 (by decide) (by decide)

end OpenF1
